import Mathlib

/-!
Verification development for the pgforecast scoring/aggregation engine.

The Go source (metrics.go, tuning.go, forecast code, data types) is shallowly
embedded below.  Go float64 arithmetic is modelled over ℚ (the algorithms use
only field operations and comparisons on values that are exact in both
models); Go ints are modelled as ℤ.  Go-specific primitives are modelled
explicitly:
  - `math.Round` (round half away from zero) is `goRound`;
  - conversion `int(x)` (truncation toward zero) is `goTrunc`;
  - the Go `%` operator on ints (truncated remainder) is `Int.tmod`;
  - Go integer division `/` (truncated) is `Int.tdiv`.
Presentation-only configuration (icons/colours) is omitted: it feeds no
computation verified here.
-/

namespace Pgforecast

/-- Go `math.Round`: round to nearest integer, halves away from zero. -/
def goRound (x : ℚ) : ℤ := if 0 ≤ x then ⌊x + 1/2⌋ else ⌈x - 1/2⌉

/-- Go conversion `int(x)` from float64: truncation toward zero. -/
def goTrunc (x : ℚ) : ℤ := if 0 ≤ x then ⌊x⌋ else ⌈x⌉

/- Constants from metrics.go. -/

def DegreesPerCompassPoint : ℚ := 22.5

def CompassDirectionCount : ℤ := 16

def PressureLevelMinHPa : ℤ := 850

def PressureLevelMaxHPa : ℤ := 1000

def LapseRatePressureHigh : ℤ := 925

def LapseRatePressureLow : ℤ := 700

def DefaultLapseRate : ℚ := 6.5

def MetersPerKm : ℚ := 1000.0

def LapseRateStrongThreshold : ℚ := 9.0

def SpreadToCloudbaseDivisor : ℚ := 2.5

def SpreadToCloudbaseMultiplier : ℚ := 1000

def MetersToFeet : ℚ := 3.28084

def DegreesHalfCircle : ℚ := 180

def DegreesFullCircle : ℚ := 360

def ScoreMin : ℤ := 1

def ScoreMax : ℤ := 5

def PrecipProbHighThreshold : ℚ := 50

def PrecipProbLowThreshold : ℚ := 30

def WindDirFarOffAngle : ℚ := 90.0

def WindDirModerateOffAngle : ℚ := 45.0

def WindDirMarginalAngle : ℚ := 20.0

/- Data model (types.go). -/

/-- Site represents a paragliding launch site. -/
structure Site where
  Name : String
  Lat : ℚ
  Lon : ℚ
  Elevation : ℤ
  WindMin : ℤ
  WindMax : ℤ
  BestDir : ℤ
  Aspect : ℤ
  deriving DecidableEq, Repr

/-- PressureLevel holds data for one pressure level at one hour. -/
structure PressureLevel where
  Pressure : ℤ
  WindSpeed : ℚ
  WindDirection : ℚ
  Temperature : ℚ
  GeopotentialHeight : ℚ
  deriving DecidableEq, Repr

/-- Model of a `time.Time` already expressed in the forecast's local
timezone: a calendar-day key plus the hour of day.  The Go code only ever
uses the day key (for grouping) and the hour (for the daylight filter), and
formats the time into a label for the best window. -/
structure LocalTime where
  day : ℤ
  hour : ℕ
  deriving DecidableEq, Repr

/-- HourlyData holds all weather data for one hour. -/
structure HourlyData where
  Time : LocalTime
  Temperature : ℚ
  RelativeHumidity : ℚ
  DewPoint : ℚ
  WindSpeed : ℚ
  WindDirection : ℚ
  WindGusts : ℚ
  CloudCover : ℚ
  CAPE : ℚ
  Precipitation : ℚ
  PrecipitationProbability : ℚ
  FreezingLevelHeight : ℚ
  IsDay : ℤ
  PressureLevels : List PressureLevel
  deriving DecidableEq, Repr

/-- HourlyMetrics holds computed paragliding metrics for one hour. -/
structure HourlyMetrics where
  Time : LocalTime
  WindSpeed : ℚ
  WindDirection : ℚ
  WindDirStr : String
  WindGusts : ℚ
  WindGradient : String
  WindGradientDiff : ℚ
  ThermalRating : String
  CAPE : ℚ
  CAPERating : String
  CloudbaseFt : ℤ
  CloudCover : ℚ
  Precipitation : ℚ
  PrecipProb : ℚ
  OrographicLift : String
  FlyabilityScore : ℤ
  XCPotential : String
  FreezingLevel : ℚ
  IsDay : Bool
  PressureLevels : List PressureLevel
  deriving DecidableEq, Repr

/-- DaySummary holds aggregated metrics for extended outlook days. -/
structure DaySummary where
  Date : ℤ
  AvgWindSpeed : ℚ
  AvgWindDir : ℚ
  WindDirStr : String
  MaxGusts : ℚ
  ThermalRating : String
  MaxPrecipProb : ℚ
  AvgCloudbase : ℤ
  BestScore : ℤ
  XCPotential : String
  deriving DecidableEq, Repr

/-- DayForecast holds hourly metrics for one day. -/
structure DayForecast where
  Date : ℤ
  Hours : List HourlyMetrics
  Summary : DaySummary
  deriving DecidableEq, Repr

/-- SiteForecast holds the complete forecast for one site. -/
structure SiteForecast where
  Site : Site
  Generated : LocalTime
  Units : String
  DetailedDays : List DayForecast
  ExtendedDays : List DaySummary
  BestWindow : String
  deriving DecidableEq, Repr

/- TuningConfig (tuning.go), display sub-config omitted (presentation only). -/

structure WindTuning where
  IdealMin : ℚ
  IdealMax : ℚ
  AcceptableMin : ℚ
  AcceptableMax : ℚ
  DangerousMax : ℚ
  MaxGustFactor : ℚ
  DangerousGustFactor : ℚ
  deriving DecidableEq, Repr

structure GradientTuning where
  LowThreshold : ℚ
  HighThreshold : ℚ
  HighPenalty : ℚ
  MediumPenalty : ℚ
  deriving DecidableEq, Repr

structure ThermalTuning where
  CAPEWeak : ℚ
  CAPEModerate : ℚ
  CAPEStrong : ℚ
  CAPEExtreme : ℚ
  LapseRateBonus : ℚ
  deriving DecidableEq, Repr

structure OrographicTuning where
  MinWindSpeed : ℚ
  StrongAngle : ℚ
  ModerateAngle : ℚ
  WeakAngle : ℚ
  deriving DecidableEq, Repr

structure CloudbaseTuning where
  MinRealisticFt : ℤ
  deriving DecidableEq, Repr

structure ScoringTuning where
  BaseScore : ℚ
  WindIdealBonus : ℚ
  WindAcceptableBonus : ℚ
  WindDangerPenalty : ℚ
  WindHighPenalty : ℚ
  DirOnBonus : ℚ
  DirOffPenalty : ℚ
  GustHighPenalty : ℚ
  GustMedPenalty : ℚ
  RainPenalty : ℚ
  RainProbPenalty : ℚ
  GradientHighPenalty : ℚ
  GradientMedPenalty : ℚ
  CAPEBonus : ℚ
  ThermalStrongBonus : ℚ
  deriving DecidableEq, Repr

structure XCTuning where
  MinCloudbaseFt : ℤ
  GoodCloudbaseFt : ℤ
  MaxWindSpeed : ℚ
  MinWindSpeed : ℚ
  EpicThreshold : ℤ
  HighThreshold : ℤ
  MediumThreshold : ℤ
  deriving DecidableEq, Repr

/-- TuningConfig holds all tunable parameters for the forecast engine. -/
structure TuningConfig where
  Wind : WindTuning
  Gradient : GradientTuning
  Thermal : ThermalTuning
  Orographic : OrographicTuning
  Cloudbase : CloudbaseTuning
  Scoring : ScoringTuning
  XC : XCTuning
  deriving DecidableEq, Repr

/-- DefaultTuningConfig returns the default tuning configuration. -/
def DefaultTuningConfig : TuningConfig where
  Wind :=
    { IdealMin := 8
      IdealMax := 18
      AcceptableMin := 5
      AcceptableMax := 22
      DangerousMax := 25
      MaxGustFactor := 1.5
      DangerousGustFactor := 2.0 }
  Gradient :=
    { LowThreshold := 10
      HighThreshold := 20
      HighPenalty := -2.0
      MediumPenalty := -1.0 }
  Thermal :=
    { CAPEWeak := 100
      CAPEModerate := 300
      CAPEStrong := 1000
      CAPEExtreme := 2500
      LapseRateBonus := 8.0 }
  Orographic :=
    { MinWindSpeed := 8
      StrongAngle := 15
      ModerateAngle := 30
      WeakAngle := 45 }
  Cloudbase := { MinRealisticFt := 200 }
  Scoring :=
    { BaseScore := 2.5
      WindIdealBonus := 1.0
      WindAcceptableBonus := 0.5
      WindDangerPenalty := -2.0
      WindHighPenalty := -1.0
      DirOnBonus := 1.5
      DirOffPenalty := -2.0
      GustHighPenalty := -1.5
      GustMedPenalty := -0.5
      RainPenalty := -2.5
      RainProbPenalty := -0.5
      GradientHighPenalty := -1.5
      GradientMedPenalty := -0.5
      CAPEBonus := 0.5
      ThermalStrongBonus := 0.5 }
  XC :=
    { MinCloudbaseFt := 3000
      GoodCloudbaseFt := 4000
      MaxWindSpeed := 20
      MinWindSpeed := 8
      EpicThreshold := 7
      HighThreshold := 5
      MediumThreshold := 3 }

/- metrics.go. -/

/-- Compass direction labels, in order, as in DegreesToCompass. -/
def compassDirs : List String :=
  ["N", "NNE", "NE", "ENE", "E", "ESE", "SE", "SSE",
   "S", "SSW", "SW", "WSW", "W", "WNW", "NW", "NNW"]

/-- DegreesToCompass converts degrees to compass direction string.
The Go code indexes `dirs[idx]` after forcing `idx` into `[0,16)`; the
embedding uses `getD` with an arbitrary default, and the bound is proved
separately. -/
def DegreesToCompass (deg : ℚ) : String :=
  let idx := (goRound (deg / DegreesPerCompassPoint)).tmod CompassDirectionCount
  let idx := if idx < 0 then idx + CompassDirectionCount else idx
  compassDirs.getD idx.toNat "N"

/-- One step of the maximum-upper-wind scan in CalcWindGradient. -/
def gradientStep (acc : ℚ) (l : PressureLevel) : ℚ :=
  if PressureLevelMinHPa ≤ l.Pressure ∧ l.Pressure ≤ PressureLevelMaxHPa ∧ acc < l.WindSpeed
  then l.WindSpeed else acc

/-- CalcWindGradient computes wind speed difference between surface and
flyable pressure levels (1000-850 hPa); 700 hPa is excluded. -/
def CalcWindGradient (surface : ℚ) (levels : List PressureLevel) (tc : TuningConfig) :
    ℚ × String :=
  let maxUpper := levels.foldl gradientStep surface
  let diff := maxUpper - surface
  let diff := if diff < 0 then 0 else diff
  let rating :=
    if diff < tc.Gradient.LowThreshold then "Low"
    else if diff < tc.Gradient.HighThreshold then "Medium"
    else "High"
  (diff, rating)

/-- Scan state of the loop in calcLapseRate. -/
structure LapseScanState where
  t925 : ℚ
  h925 : ℚ
  t700 : ℚ
  h700 : ℚ
  found925 : Bool
  found700 : Bool
  deriving DecidableEq, Repr

/-- One iteration of the level scan in calcLapseRate (later levels
overwrite earlier ones with the same pressure, as in the Go loop). -/
def lapseStep (st : LapseScanState) (l : PressureLevel) : LapseScanState :=
  let st :=
    if l.Pressure = LapseRatePressureHigh then
      { st with t925 := l.Temperature, h925 := l.GeopotentialHeight, found925 := true }
    else st
  if l.Pressure = LapseRatePressureLow then
    { st with t700 := l.Temperature, h700 := l.GeopotentialHeight, found700 := true }
  else st

def calcLapseRate (levels : List PressureLevel) : ℚ :=
  let st := levels.foldl lapseStep ⟨0, 0, 0, 0, false, false⟩
  if ¬st.found925 ∨ ¬st.found700 ∨ st.h700 ≤ st.h925 then DefaultLapseRate
  else (st.t925 - st.t700) / ((st.h700 - st.h925) / MetersPerKm)

/-- CalcThermalRating estimates thermal potential from CAPE and lapse rate. -/
def CalcThermalRating (cape : ℚ) (levels : List PressureLevel) (tc : TuningConfig) : String :=
  let lapseRate := calcLapseRate levels
  let score : ℚ :=
    if tc.Thermal.CAPEExtreme < cape then 4
    else if tc.Thermal.CAPEStrong < cape then 3
    else if tc.Thermal.CAPEModerate < cape then 2
    else if tc.Thermal.CAPEWeak < cape then 1
    else 0
  let score := score + (if tc.Thermal.LapseRateBonus < lapseRate then 1 else 0)
  let score := score + (if LapseRateStrongThreshold < lapseRate then 1 else 0)
  if 5 ≤ score then "Extreme"
  else if 4 ≤ score then "Strong"
  else if 3 ≤ score then "Moderate"
  else if 1 ≤ score then "Weak"
  else "None"

/-- CalcCAPERating rates CAPE value. -/
def CalcCAPERating (cape : ℚ) (tc : TuningConfig) : String :=
  if tc.Thermal.CAPEExtreme ≤ cape then "Overdevelopment"
  else if tc.Thermal.CAPEStrong ≤ cape then "Strong"
  else if tc.Thermal.CAPEModerate ≤ cape then "Moderate"
  else "Weak"

/-- CalcCloudbaseFt estimates cloudbase in feet from temp and dewpoint. -/
def CalcCloudbaseFt (temp dewpoint : ℚ) (tc : TuningConfig) : ℤ :=
  let spread := temp - dewpoint
  let spread := if spread < 0 then 0 else spread
  let ft := goTrunc (spread / SpreadToCloudbaseDivisor * SpreadToCloudbaseMultiplier)
  if ft < tc.Cloudbase.MinRealisticFt then tc.Cloudbase.MinRealisticFt else ft

/-- CloudbaseStr returns a display string for cloudbase, showing "Fog" for
very low values (`fmt.Sprintf("%dft", ft)` becomes `toString ft ++ "ft"`). -/
def CloudbaseStr (ft : ℤ) (tc : TuningConfig) : String :=
  if ft ≤ tc.Cloudbase.MinRealisticFt then "Fog"
  else toString ft ++ "ft"

def angleDiff (a b : ℚ) : ℚ :=
  let d := |a - b|
  if d > DegreesHalfCircle then DegreesFullCircle - d else d

/-- CalcOrographicLift rates orographic lift potential. -/
def CalcOrographicLift (windDir windSpeed : ℚ) (siteAspect : ℤ) (tc : TuningConfig) : String :=
  let diff := angleDiff windDir (siteAspect : ℚ)
  if windSpeed < tc.Orographic.MinWindSpeed then "None"
  else if diff ≤ tc.Orographic.StrongAngle then "Strong"
  else if diff ≤ tc.Orographic.ModerateAngle then "Moderate"
  else if diff ≤ tc.Orographic.WeakAngle then "Weak"
  else "None"

def isInWindRange (dir : ℚ) (mn mx : ℤ) : Bool :=
  let d := (goTrunc dir).tmod 360
  if mn ≤ mx then decide (mn ≤ d ∧ d ≤ mx)
  else decide (mn ≤ d ∨ d ≤ mx)

/-- distanceFromWindRange returns the minimum angular distance from dir to
the nearest edge of the [mn, mx] wind range; 0 if inside the range. -/
def distanceFromWindRange (dir : ℚ) (mn mx : ℤ) : ℚ :=
  if isInWindRange dir mn mx then 0
  else
    let dMin := angleDiff dir (mn : ℚ)
    let dMax := angleDiff dir (mx : ℚ)
    if dMin < dMax then dMin else dMax

/-- Accumulated (pre-round, pre-clamp) flyability score of
CalcFlyabilityScore: every signed adjustment of the Go function, in the
same order. -/
def flyabilityRaw (h : HourlyData) (site : Site) (gradientRating thermalRating : String)
    (tc : TuningConfig) : ℚ :=
  let s := tc.Scoring
  let score := s.BaseScore
  let ws := h.WindSpeed
  let score := score +
    (if tc.Wind.IdealMin ≤ ws ∧ ws ≤ tc.Wind.IdealMax then s.WindIdealBonus
     else if tc.Wind.AcceptableMin ≤ ws ∧ ws ≤ tc.Wind.AcceptableMax then s.WindAcceptableBonus
     else if tc.Wind.DangerousMax < ws then s.WindDangerPenalty
     else if tc.Wind.AcceptableMax < ws then s.WindHighPenalty
     else 0)
  let score := score +
    (if isInWindRange h.WindDirection site.WindMin site.WindMax then s.DirOnBonus
     else
       let distFromRange := distanceFromWindRange h.WindDirection site.WindMin site.WindMax
       if WindDirFarOffAngle < distFromRange then s.DirOffPenalty
       else if WindDirModerateOffAngle < distFromRange then -1.0
       else if WindDirMarginalAngle < distFromRange then -0.5
       else 0)
  let score := score +
    (if 0 < h.WindSpeed then
       let gustFactor := h.WindGusts / h.WindSpeed
       if tc.Wind.DangerousGustFactor < gustFactor then s.GustHighPenalty
       else if tc.Wind.MaxGustFactor < gustFactor then s.GustMedPenalty
       else 0
     else 0)
  let score := score +
    (if gradientRating = "High" then s.GradientHighPenalty
     else if gradientRating = "Medium" then s.GradientMedPenalty
     else 0)
  let score := score +
    (if 0 < h.Precipitation then s.RainPenalty
     else if PrecipProbHighThreshold < h.PrecipitationProbability then s.RainProbPenalty
     else if PrecipProbLowThreshold < h.PrecipitationProbability then -0.25
     else 0)
  let score := score +
    (if tc.Thermal.CAPEModerate ≤ h.CAPE ∧ h.CAPE < tc.Thermal.CAPEExtreme then s.CAPEBonus
     else 0)
  score + (if thermalRating = "Strong" ∨ thermalRating = "Moderate" then s.ThermalStrongBonus else 0)

/-- CalcFlyabilityScore calculates a 1-5 star rating using TuningConfig:
the accumulated score is rounded, then clamped into [1,5]. -/
def CalcFlyabilityScore (h : HourlyData) (site : Site) (gradientRating thermalRating : String)
    (tc : TuningConfig) : ℤ :=
  let result := goRound (flyabilityRaw h site gradientRating thermalRating tc)
  let result := if result < ScoreMin then ScoreMin else result
  if result > ScoreMax then ScoreMax else result

/-- Thermal-rating contribution of the switch at the end of the XC point
accumulation. -/
def thermalXCPoints (thermalRating : String) : ℤ :=
  if thermalRating = "Strong" then 2
  else if thermalRating = "Moderate" then 1
  else if thermalRating = "Extreme" then 1
  else 0

/-- Integer point total accumulated by CalcXCPotential. -/
def xcScore (cape : ℚ) (cloudbaseFt : ℤ) (windSpeed : ℚ) (thermalRating : String)
    (tc : TuningConfig) : ℤ :=
  let score : ℤ := 0
  let score := score +
    (if tc.Thermal.CAPEStrong ≤ cape then 2
     else if tc.Thermal.CAPEModerate ≤ cape then 1
     else 0)
  let score := score +
    (if tc.XC.GoodCloudbaseFt ≤ cloudbaseFt then 2
     else if tc.XC.MinCloudbaseFt ≤ cloudbaseFt then 1
     else 0)
  let score := score +
    (if tc.XC.MinWindSpeed ≤ windSpeed ∧ windSpeed ≤ tc.XC.MaxWindSpeed then 1 else 0)
  score + thermalXCPoints thermalRating

/-- CalcXCPotential rates cross-country potential. -/
def CalcXCPotential (cape : ℚ) (cloudbaseFt : ℤ) (windSpeed : ℚ) (thermalRating : String)
    (tc : TuningConfig) : String :=
  let score := xcScore cape cloudbaseFt windSpeed thermalRating tc
  if tc.XC.EpicThreshold ≤ score then "Epic"
  else if tc.XC.HighThreshold ≤ score then "High"
  else if tc.XC.MediumThreshold ≤ score then "Medium"
  else "Low"

/-- ComputeHourlyMetrics computes all paragliding metrics for one hour. -/
def ComputeHourlyMetrics (h : HourlyData) (site : Site) (tc : TuningConfig) : HourlyMetrics :=
  let gradient := CalcWindGradient h.WindSpeed h.PressureLevels tc
  let thermalRating := CalcThermalRating h.CAPE h.PressureLevels tc
  let cloudbase := CalcCloudbaseFt h.Temperature h.DewPoint tc
  { Time := h.Time
    WindSpeed := h.WindSpeed
    WindDirection := h.WindDirection
    WindDirStr := DegreesToCompass h.WindDirection
    WindGusts := h.WindGusts
    WindGradient := gradient.2
    WindGradientDiff := gradient.1
    ThermalRating := thermalRating
    CAPE := h.CAPE
    CAPERating := CalcCAPERating h.CAPE tc
    CloudbaseFt := cloudbase
    CloudCover := h.CloudCover
    Precipitation := h.Precipitation
    PrecipProb := h.PrecipitationProbability
    OrographicLift := CalcOrographicLift h.WindDirection h.WindSpeed site.Aspect tc
    FlyabilityScore := CalcFlyabilityScore h site gradient.2 thermalRating tc
    XCPotential := CalcXCPotential h.CAPE cloudbase h.WindSpeed thermalRating tc
    FreezingLevel := h.FreezingLevelHeight * MetersToFeet
    IsDay := h.IsDay = 1
    PressureLevels := h.PressureLevels }

/- forecast.go: day aggregation and forecast generation.  The network fetch
(FetchWeather) is I/O and is factored out: `generateForecastCore` is the
pure remainder of GenerateForecast, taking the already-fetched hourly data
(with times already in the local timezone) as a parameter. -/

/-- Ordinal rank of thermal ratings used by summarizeDay; a Go map lookup
of a missing key yields the zero value 0. -/
def thermalOrder (s : String) : ℤ :=
  if s = "None" then 0
  else if s = "Weak" then 1
  else if s = "Moderate" then 2
  else if s = "Strong" then 3
  else if s = "Extreme" then 4
  else 0

/-- Insert into a descending-sorted list (helper of `sortDesc`). -/
def insertDesc (x : ℤ) : List ℤ → List ℤ
  | [] => [x]
  | y :: ys => if y ≤ x then x :: y :: ys else y :: insertDesc x ys

/-- Sort a list of ints into descending order; models
`sort.Sort(sort.Reverse(sort.IntSlice(scores)))` in summarizeDay. -/
def sortDesc : List ℤ → List ℤ
  | [] => []
  | x :: xs => insertDesc x (sortDesc xs)

/-- Accumulator of the per-hour loop in summarizeDay. -/
structure DayAcc where
  totalWind : ℚ
  totalDir : ℚ
  maxGusts : ℚ
  maxPrecip : ℚ
  maxCAPE : ℚ
  bestThermal : String
  totalCloudbase : ℤ
  scores : List ℤ
  deriving DecidableEq, Repr

/-- One iteration of the per-hour loop in summarizeDay. -/
def dayAccStep (acc : DayAcc) (m : HourlyMetrics) : DayAcc :=
  { totalWind := acc.totalWind + m.WindSpeed
    totalDir := acc.totalDir + m.WindDirection
    maxGusts := if acc.maxGusts < m.WindGusts then m.WindGusts else acc.maxGusts
    maxPrecip := if acc.maxPrecip < m.PrecipProb then m.PrecipProb else acc.maxPrecip
    maxCAPE := if acc.maxCAPE < m.CAPE then m.CAPE else acc.maxCAPE
    bestThermal :=
      if thermalOrder acc.bestThermal < thermalOrder m.ThermalRating
      then m.ThermalRating else acc.bestThermal
    totalCloudbase := acc.totalCloudbase + m.CloudbaseFt
    scores := acc.scores ++ [m.FlyabilityScore] }

def summarizeDay (date : ℤ) (metrics : List HourlyMetrics) (tc : TuningConfig) : DaySummary :=
  if metrics = [] then
    { Date := date, AvgWindSpeed := 0, AvgWindDir := 0, WindDirStr := "", MaxGusts := 0,
      ThermalRating := "", MaxPrecipProb := 0, AvgCloudbase := 0, BestScore := 0,
      XCPotential := "" }
  else
    let acc := metrics.foldl dayAccStep
      { totalWind := 0, totalDir := 0, maxGusts := 0, maxPrecip := 0, maxCAPE := 0,
        bestThermal := "None", totalCloudbase := 0, scores := [] }
    let sorted := sortDesc acc.scores
    let topN := if acc.scores.length < 3 then acc.scores.length else 3
    let sum := (sorted.take topN).foldl (· + ·) 0
    let dayScore := (sum + (topN : ℤ).tdiv 2).tdiv (topN : ℤ)
    let n : ℚ := (metrics.length : ℚ)
    let avgDir := acc.totalDir / n
    { Date := date
      AvgWindSpeed := acc.totalWind / n
      AvgWindDir := avgDir
      WindDirStr := DegreesToCompass avgDir
      MaxGusts := acc.maxGusts
      ThermalRating := acc.bestThermal
      MaxPrecipProb := acc.maxPrecip
      AvgCloudbase := acc.totalCloudbase.tdiv (metrics.length : ℤ)
      BestScore := dayScore
      XCPotential := CalcXCPotential acc.maxCAPE (acc.totalCloudbase.tdiv (metrics.length : ℤ))
        (acc.totalWind / n) acc.bestThermal tc }

/-- Append an hour to its day's group, keyed by the local calendar day;
models the `dayMap`/`dayOrder` pair of GenerateForecast (first-occurrence
key order, insertion order within a day). -/
def insertGrouped (key : ℤ) (h : HourlyData) :
    List (ℤ × List HourlyData) → List (ℤ × List HourlyData)
  | [] => [(key, [h])]
  | (k, g) :: rest =>
      if k = key then (k, g ++ [h]) :: rest else (k, g) :: insertGrouped key h rest

def groupByDay (hs : List HourlyData) : List (ℤ × List HourlyData) :=
  hs.foldl (fun acc h => insertGrouped h.Time.day h acc) []

/-- Daylight filter of GenerateForecast: hours 08:00-18:00 local. -/
def daylightHours (hs : List HourlyData) : List HourlyData :=
  hs.filter (fun h => 8 ≤ h.Time.hour ∧ h.Time.hour ≤ 18)

/-- Model of `lt.Format("Mon 15:04")`: a non-empty label naming the hour. -/
def fmtTime (t : LocalTime) : String :=
  toString t.day ++ " " ++ toString t.hour

/-- Best-window update of GenerateForecast for one computed hour. -/
def bestStep (b : ℤ × String) (m : HourlyMetrics) : ℤ × String :=
  if b.1 < m.FlyabilityScore then (m.FlyabilityScore, fmtTime m.Time) else b

/-- Detailed-day inner loop of GenerateForecast: compute metrics for each
daylight hour (in order) and thread the best-window state through.  The Go
code builds `df.Hours` and `dayMetrics` as two identical lists; the
embedding returns the list once. -/
def processDetailedHours (site : Site) (tc : TuningConfig) :
    List HourlyData → ℤ × String → List HourlyMetrics × (ℤ × String)
  | [], b => ([], b)
  | h :: rest, b =>
      if 8 ≤ h.Time.hour ∧ h.Time.hour ≤ 18 then
        let m := ComputeHourlyMetrics h site tc
        let b2 := bestStep b m
        let r := processDetailedHours site tc rest b2
        (m :: r.1, r.2)
      else processDetailedHours site tc rest b

/-- Day loop of GenerateForecast: days with index below `detailedDays` get
hourly detail and feed the best window; later days only produce an extended
summary when they have daylight hours. -/
def processDays (site : Site) (tc : TuningConfig) (detailedDays : ℕ) :
    List (ℤ × List HourlyData) → ℕ → ℤ × String →
    List DayForecast × List DaySummary × (ℤ × String)
  | [], _, b => ([], [], b)
  | (date, hs) :: rest, dayIdx, b =>
      if dayIdx < detailedDays then
        let r := processDetailedHours site tc hs b
        let df : DayForecast := ⟨date, r.1, summarizeDay date r.1 tc⟩
        let rec' := processDays site tc detailedDays rest (dayIdx + 1) r.2
        (df :: rec'.1, rec'.2.1, rec'.2.2)
      else
        let ms := (daylightHours hs).map (fun h => ComputeHourlyMetrics h site tc)
        let rec' := processDays site tc detailedDays rest (dayIdx + 1) b
        (rec'.1, (if ms ≠ [] then [summarizeDay date ms tc] else []) ++ rec'.2.1, rec'.2.2)

/-- Effective number of detailed days: `opts.DetailedDays`, defaulting to 3
when non-positive. -/
def effDetailedDays (detailedDaysOpt : ℤ) : ℕ :=
  if detailedDaysOpt ≤ 0 then 3 else detailedDaysOpt.toNat

/-- Pure core of GenerateForecast: everything after the weather fetch. -/
def generateForecastCore (site : Site) (now : LocalTime) (units : String)
    (detailedDaysOpt : ℤ) (tc : TuningConfig) (hourlyData : List HourlyData) : SiteForecast :=
  let detailedDays := effDetailedDays detailedDaysOpt
  let days := groupByDay hourlyData
  let r := processDays site tc detailedDays days 0 (0, "")
  { Site := site
    Generated := now
    Units := units
    DetailedDays := r.1
    ExtendedDays := r.2.1
    BestWindow := if 3 ≤ r.2.2.1 then r.2.2.2 else "" }

/- Spec-side definitions used to state the claims. -/

/-- A pressure level the gradient estimator considers: pressure in
[850, 1000] hPa. -/
def flyableLevel (l : PressureLevel) : Prop :=
  PressureLevelMinHPa ≤ l.Pressure ∧ l.Pressure ≤ PressureLevelMaxHPa

instance (l : PressureLevel) : Decidable (flyableLevel l) := by
  unfold flyableLevel; exact instDecidableAnd

/-- Rounded integer average of the top 3 scores (all of them when fewer
than 3), ties rounded up by adding `topN/2` before the (truncated) integer
division — the day-score formula of the specification. -/
def topNAverage (scores : List ℤ) : ℤ :=
  let sorted := sortDesc scores
  let topN := if scores.length < 3 then scores.length else 3
  ((sorted.take topN).foldl (· + ·) 0 + (topN : ℤ).tdiv 2).tdiv (topN : ℤ)

/-- The last pressure level carrying the given pressure, if any — the level
whose values survive the overwrite-on-match scan of calcLapseRate. -/
def lastLevelAt (p : ℤ) : List PressureLevel → Option PressureLevel
  | [] => none
  | l :: rest =>
      match lastLevelAt p rest with
      | some r => some r
      | none => if l.Pressure = p then some l else none

/-- An hourly-metrics fixture carrying a given flyability score, used to
exercise the day aggregation on concrete score lists. -/
def sampleMetric (s : ℤ) : HourlyMetrics :=
  { Time := ⟨0, 12⟩, WindSpeed := 0, WindDirection := 0, WindDirStr := "", WindGusts := 0,
    WindGradient := "Low", WindGradientDiff := 0, ThermalRating := "None", CAPE := 0,
    CAPERating := "Weak", CloudbaseFt := 0, CloudCover := 0, Precipitation := 0,
    PrecipProb := 0, OrographicLift := "None", FlyabilityScore := s, XCPotential := "Low",
    FreezingLevel := 0, IsDay := true, PressureLevels := [] }

/-- The hourly metrics of the daylight hours of the detailed days, in
forecast order: the candidate pool for the best flying window.  Hours of
extended days (index ≥ detailedDays) are not in this pool. -/
def detailedDaylightMetrics (site : Site) (tc : TuningConfig) (detailedDays : ℕ)
    (days : List (ℤ × List HourlyData)) : List HourlyMetrics :=
  ((days.take detailedDays).map
    (fun p => (daylightHours p.2).map (fun h => ComputeHourlyMetrics h site tc))).flatten

/-- The highest flyability score over the daylight hours of the detailed
days (0 when there are none). -/
def bestDetailedScore (site : Site) (tc : TuningConfig) (detailedDays : ℕ)
    (days : List (ℤ × List HourlyData)) : ℤ :=
  ((detailedDaylightMetrics site tc detailedDays days).map
    (fun m => m.FlyabilityScore)).foldr max 0

/- Helper lemmas. -/

theorem gradientStep_not_flyable {l : PressureLevel} (acc : ℚ) (hl : ¬ flyableLevel l) :
    gradientStep acc l = acc := by
  unfold gradientStep
  unfold flyableLevel at hl
  rw [if_neg]
  tauto

theorem foldl_gradientStep_filter (levels : List PressureLevel) :
    ∀ acc : ℚ, (levels.filter (fun l => decide (flyableLevel l))).foldl gradientStep acc
      = levels.foldl gradientStep acc := by
  induction levels with
  | nil => intro acc; rfl
  | cons l rest ih =>
      intro acc
      by_cases hl : flyableLevel l
      · rw [List.filter_cons_of_pos (by simpa using hl), List.foldl_cons, List.foldl_cons, ih]
      · rw [List.filter_cons_of_neg (by simpa using hl), List.foldl_cons,
          gradientStep_not_flyable _ hl, ih]

theorem dayAcc_scores (ms : List HourlyMetrics) :
    ∀ acc : DayAcc, (ms.foldl dayAccStep acc).scores
      = acc.scores ++ ms.map (fun m => m.FlyabilityScore) := by
  induction ms with
  | nil => intro acc; simp
  | cons m rest ih =>
      intro acc
      rw [List.foldl_cons, ih]
      simp [dayAccStep]

theorem goTrunc_intCast (z : ℤ) : goTrunc (z : ℚ) = z := by
  unfold goTrunc
  split_ifs
  · exact Int.floor_intCast z
  · exact Int.ceil_intCast z

theorem append_ft_ne_fog (s : String) : s ++ "ft" ≠ "Fog" := by
  intro hcontra
  have h3 : (s ++ "ft").length = 3 := by rw [hcontra]; rfl
  rw [String.length_append] at h3
  have h2 : ("ft" : String).length = 2 := rfl
  rw [h2] at h3
  obtain ⟨data⟩ := s
  have hlen : data.length = 1 := by
    have : (String.mk data).length = data.length := rfl
    omega
  match data, hlen with
  | [c], _ =>
      have hd : c :: 'f' :: 't' :: [] = ['F', 'o', 'g'] := congrArg String.data hcontra
      injection hd with h1 hd
      injection hd with h2 hd
      exact absurd h2 (by decide)

/- Claim theorems. -/

/-- C1: for every hourly observation, site, gradient rating, thermal rating
and tuning configuration, CalcFlyabilityScore rounds the accumulated float
score to the nearest integer, clamps it, and the result always lies in
[ScoreMin, ScoreMax] = [1, 5]. -/
theorem calcFlyabilityScore_in_one_to_five (h : HourlyData) (site : Site)
    (gradientRating thermalRating : String) (tc : TuningConfig) :
    CalcFlyabilityScore h site gradientRating thermalRating tc =
      (let r := goRound (flyabilityRaw h site gradientRating thermalRating tc)
       if r < ScoreMin then ScoreMin else if ScoreMax < r then ScoreMax else r) ∧
    ScoreMin ≤ CalcFlyabilityScore h site gradientRating thermalRating tc ∧
    CalcFlyabilityScore h site gradientRating thermalRating tc ≤ ScoreMax := by
  refine ⟨?_, ?_, ?_⟩ <;>
    (simp only [CalcFlyabilityScore, ScoreMin, ScoreMax]; split_ifs <;> omega)

/-- C2: the gradient diff is never negative, and the result depends only
on the levels with pressure inside [850, 1000] hPa (so any level outside,
such as 700 hPa, leaves diff and rating unchanged); with the default
thresholds, surface 10 and levels {950:20, 900:30, 850:35} rate High
(diff 25), unchanged by a 700 hPa outlier of 80. -/
theorem calcWindGradient_nonneg_ignores_high_levels
    (surface : ℚ) (levels : List PressureLevel) (tc : TuningConfig) :
    0 ≤ (CalcWindGradient surface levels tc).1 ∧
    CalcWindGradient surface levels tc
      = CalcWindGradient surface (levels.filter (fun l => decide (flyableLevel l))) tc ∧
    CalcWindGradient 10 [⟨950, 20, 0, 0, 0⟩, ⟨900, 30, 0, 0, 0⟩, ⟨850, 35, 0, 0, 0⟩]
      DefaultTuningConfig = (25, "High") ∧
    CalcWindGradient 10 [⟨950, 20, 0, 0, 0⟩, ⟨900, 30, 0, 0, 0⟩, ⟨850, 35, 0, 0, 0⟩,
      ⟨700, 80, 0, 0, 0⟩] DefaultTuningConfig = (25, "High") := by
  refine ⟨?_, ?_, ?_, ?_⟩
  · simp only [CalcWindGradient]
    split_ifs with h
    · simp
    · simp
      linarith
  · simp only [CalcWindGradient, foldl_gradientStep_filter]
  · simp only [CalcWindGradient, gradientStep, List.foldl_cons, List.foldl_nil,
      PressureLevelMinHPa, PressureLevelMaxHPa, DefaultTuningConfig]
    norm_num
  · simp only [CalcWindGradient, gradientStep, List.foldl_cons, List.foldl_nil,
      PressureLevelMinHPa, PressureLevelMaxHPa, DefaultTuningConfig]
    norm_num

/-- C4: in the XC point total, a Strong thermal rating contributes exactly
2 points, Moderate exactly 1 and Extreme exactly 1 (so Extreme never beats
Strong, other inputs equal), and CalcXCPotential maps the total through the
descending threshold chain Epic/High/Medium/Low. -/
theorem calcXCPotential_thermal_table (cape : ℚ) (cloudbaseFt : ℤ) (windSpeed : ℚ)
    (thermalRating : String) (tc : TuningConfig) :
    xcScore cape cloudbaseFt windSpeed "Strong" tc
      = xcScore cape cloudbaseFt windSpeed "None" tc + 2 ∧
    xcScore cape cloudbaseFt windSpeed "Moderate" tc
      = xcScore cape cloudbaseFt windSpeed "None" tc + 1 ∧
    xcScore cape cloudbaseFt windSpeed "Extreme" tc
      = xcScore cape cloudbaseFt windSpeed "None" tc + 1 ∧
    xcScore cape cloudbaseFt windSpeed "Extreme" tc
      ≤ xcScore cape cloudbaseFt windSpeed "Strong" tc ∧
    CalcXCPotential cape cloudbaseFt windSpeed thermalRating tc
      = (if tc.XC.EpicThreshold ≤ xcScore cape cloudbaseFt windSpeed thermalRating tc
         then "Epic"
         else if tc.XC.HighThreshold ≤ xcScore cape cloudbaseFt windSpeed thermalRating tc
         then "High"
         else if tc.XC.MediumThreshold ≤ xcScore cape cloudbaseFt windSpeed thermalRating tc
         then "Medium"
         else "Low") := by
  have hS : thermalXCPoints "Strong" = 2 := by decide
  have hM : thermalXCPoints "Moderate" = 1 := by decide
  have hE : thermalXCPoints "Extreme" = 1 := by decide
  have hN : thermalXCPoints "None" = 0 := by decide
  refine ⟨?_, ?_, ?_, ?_, rfl⟩ <;>
    (simp only [xcScore, hS, hM, hE, hN]; omega)

/-- C6 counterexample: with unconstrained inputs the wrap-around branch can
go negative; at a = 500, b = 0 the code returns 360 − 500 = −140, which is
not in [0, 180]. -/
theorem angleDiff_counterexample :
    angleDiff 500 0 = -140 ∧ ¬ (0 ≤ angleDiff 500 0 ∧ angleDiff 500 0 ≤ 180) := by
  constructor
  · simp only [angleDiff, DegreesHalfCircle, DegreesFullCircle]
    norm_num
  · simp only [angleDiff, DegreesHalfCircle, DegreesFullCircle]
    norm_num

/-- C6 amended: angleDiff computes |a−b|, replaced by 360 − |a−b| when it
exceeds 180; the result lies in [0, 180] whenever |a−b| ≤ 360 (as it always
is for compass-degree inputs), but not for arbitrary real inputs. -/
theorem angleDiff_formula_and_range (a b : ℚ) :
    angleDiff a b = (if 180 < |a - b| then 360 - |a - b| else |a - b|) ∧
    (|a - b| ≤ 360 → 0 ≤ angleDiff a b ∧ angleDiff a b ≤ 180) := by
  have hval : angleDiff a b = (if 180 < |a - b| then 360 - |a - b| else |a - b|) := by
    simp only [angleDiff, DegreesHalfCircle, DegreesFullCircle, gt_iff_lt]
  refine ⟨hval, fun hb => ?_⟩
  rw [hval]
  have h0 : 0 ≤ |a - b| := abs_nonneg _
  split_ifs with h1
  · constructor <;> linarith
  · constructor <;> linarith

/-- C6 witness: the amended range statement applied at a = 350, b = 10. -/
theorem angleDiff_formula_and_range_witness :
    0 ≤ angleDiff 350 10 ∧ angleDiff 350 10 ≤ 180 :=
  (angleDiff_formula_and_range 350 10).2 (by norm_num)

/-- C9: CalcCloudbaseFt equals the configured floor joined (by max) with
the truncation of max(0, temp − dew)/2.5·1000; CloudbaseStr is "Fog"
exactly when the value is at or below the floor; with the default
configuration temp 20/dew 10 gives 4000 ∈ [3500, 4500] and a zero spread
yields exactly the 200 ft floor, displayed as "Fog". -/
theorem calcCloudbaseFt_formula_and_fog (temp dewpoint : ℚ) (tc : TuningConfig) :
    CalcCloudbaseFt temp dewpoint tc
      = max tc.Cloudbase.MinRealisticFt (goTrunc (max 0 (temp - dewpoint) / 2.5 * 1000)) ∧
    (∀ ft : ℤ, CloudbaseStr ft tc = "Fog" ↔ ft ≤ tc.Cloudbase.MinRealisticFt) ∧
    (∀ ft : ℤ, tc.Cloudbase.MinRealisticFt < ft → CloudbaseStr ft tc = toString ft ++ "ft") ∧
    3500 ≤ CalcCloudbaseFt 20 10 DefaultTuningConfig ∧
    CalcCloudbaseFt 20 10 DefaultTuningConfig ≤ 4500 ∧
    CalcCloudbaseFt 10 10 DefaultTuningConfig = DefaultTuningConfig.Cloudbase.MinRealisticFt ∧
    CloudbaseStr (CalcCloudbaseFt 10 10 DefaultTuningConfig) DefaultTuningConfig = "Fog" := by
  have h4000 : CalcCloudbaseFt 20 10 DefaultTuningConfig = 4000 := by
    have harg : (if (20 : ℚ) - 10 < 0 then 0 else (20 : ℚ) - 10)
        / SpreadToCloudbaseDivisor * SpreadToCloudbaseMultiplier = ((4000 : ℤ) : ℚ) := by
      simp only [SpreadToCloudbaseDivisor, SpreadToCloudbaseMultiplier]
      norm_num
    simp only [CalcCloudbaseFt, harg, goTrunc_intCast, DefaultTuningConfig]
    norm_num
  have h200 : CalcCloudbaseFt 10 10 DefaultTuningConfig = 200 := by
    have harg : (if (10 : ℚ) - 10 < 0 then 0 else (10 : ℚ) - 10)
        / SpreadToCloudbaseDivisor * SpreadToCloudbaseMultiplier = ((0 : ℤ) : ℚ) := by
      simp only [SpreadToCloudbaseDivisor, SpreadToCloudbaseMultiplier]
      norm_num
    simp only [CalcCloudbaseFt, harg, goTrunc_intCast, DefaultTuningConfig]
    norm_num
  refine ⟨?_, ?_, ?_, ?_, ?_, ?_, ?_⟩
  · simp only [CalcCloudbaseFt]
    have hsp : (if temp - dewpoint < 0 then 0 else temp - dewpoint) = max 0 (temp - dewpoint) := by
      split_ifs with h
      · exact (max_eq_left (le_of_lt h)).symm
      · exact (max_eq_right (not_lt.mp h)).symm
    rw [hsp]
    show (if goTrunc (max 0 (temp - dewpoint) / SpreadToCloudbaseDivisor
        * SpreadToCloudbaseMultiplier) < tc.Cloudbase.MinRealisticFt
      then tc.Cloudbase.MinRealisticFt
      else goTrunc (max 0 (temp - dewpoint) / SpreadToCloudbaseDivisor
        * SpreadToCloudbaseMultiplier)) = _
    have hdiv : SpreadToCloudbaseDivisor = 2.5 := rfl
    have hmul : SpreadToCloudbaseMultiplier = 1000 := rfl
    rw [hdiv, hmul]
    split_ifs with h
    · exact (max_eq_left (le_of_lt h)).symm
    · exact (max_eq_right (not_lt.mp h)).symm
  · intro ft
    unfold CloudbaseStr
    split_ifs with hft
    · exact ⟨fun _ => hft, fun _ => rfl⟩
    · exact ⟨fun hc => absurd hc (append_ft_ne_fog _), fun hle => absurd hle hft⟩
  · intro ft hft
    unfold CloudbaseStr
    rw [if_neg (not_le.mpr hft)]
  · rw [h4000]; norm_num
  · rw [h4000]; norm_num
  · rw [h200]; rfl
  · rw [h200]; rfl

/-- C9 witness: the display-label implication applied at the concrete
cloudbase 300 ft, above the default 200 ft floor. -/
theorem calcCloudbaseFt_formula_and_fog_witness :
    CloudbaseStr 300 DefaultTuningConfig = toString (300 : ℤ) ++ "ft" :=
  (calcCloudbaseFt_formula_and_fog 0 0 DefaultTuningConfig).2.2.1 300 (by decide)

/-- C10: on an empty day, summarizeDay returns the date with every other
field at its zero value; the averaging divisions further down the function
are never reached on this input. -/
theorem summarizeDay_empty (date : ℤ) (tc : TuningConfig) :
    summarizeDay date [] tc =
      { Date := date, AvgWindSpeed := 0, AvgWindDir := 0, WindDirStr := "", MaxGusts := 0,
        ThermalRating := "", MaxPrecipProb := 0, AvgCloudbase := 0, BestScore := 0,
        XCPotential := "" } := rfl

/-- C3: for a non-empty day, the day flyability score is the rounded
integer average (rounding by adding topN/2 before the truncated division)
of the top 3 hourly scores, or of all of them when fewer than 3; the
hourly scores [5,4,4,3,2] give a day score of 4, not the maximum 5. -/
theorem summarizeDay_top3_average (date : ℤ) (m : HourlyMetrics) (ms : List HourlyMetrics)
    (tc : TuningConfig) :
    (summarizeDay date (m :: ms) tc).BestScore
      = topNAverage ((m :: ms).map (fun x => x.FlyabilityScore)) ∧
    topNAverage [5, 4, 4, 3, 2] = 4 ∧
    (summarizeDay date ([5, 4, 4, 3, 2].map sampleMetric) tc).BestScore = 4 := by
  have hmain : ∀ gs : List HourlyMetrics, gs ≠ [] →
      (summarizeDay date gs tc).BestScore = topNAverage (gs.map (fun x => x.FlyabilityScore)) := by
    intro gs hgs
    have hs := dayAcc_scores gs
      { totalWind := 0, totalDir := 0, maxGusts := 0, maxPrecip := 0, maxCAPE := 0,
        bestThermal := "None", totalCloudbase := 0, scores := [] }
    simp only [List.nil_append] at hs
    simp only [summarizeDay, topNAverage, if_neg hgs, hs]
  refine ⟨hmain _ (List.cons_ne_nil m ms), by decide, ?_⟩
  rw [hmain _ (by simp)]
  rfl

theorem lapseStep_spec925 (st0 : LapseScanState) (l : PressureLevel) :
    (l.Pressure = LapseRatePressureHigh →
      (lapseStep st0 l).t925 = l.Temperature ∧ (lapseStep st0 l).h925 = l.GeopotentialHeight ∧
      (lapseStep st0 l).found925 = true) ∧
    (l.Pressure ≠ LapseRatePressureHigh →
      (lapseStep st0 l).t925 = st0.t925 ∧ (lapseStep st0 l).h925 = st0.h925 ∧
      (lapseStep st0 l).found925 = st0.found925) := by
  constructor <;> intro hp <;> simp only [lapseStep] <;> split_ifs <;> simp_all

theorem lapseStep_spec700 (st0 : LapseScanState) (l : PressureLevel) :
    (l.Pressure = LapseRatePressureLow →
      (lapseStep st0 l).t700 = l.Temperature ∧ (lapseStep st0 l).h700 = l.GeopotentialHeight ∧
      (lapseStep st0 l).found700 = true) ∧
    (l.Pressure ≠ LapseRatePressureLow →
      (lapseStep st0 l).t700 = st0.t700 ∧ (lapseStep st0 l).h700 = st0.h700 ∧
      (lapseStep st0 l).found700 = st0.found700) := by
  constructor <;> intro hp <;> simp only [lapseStep] <;> split_ifs <;> simp_all

theorem lastLevelAt_cons (p : ℤ) (l : PressureLevel) (rest : List PressureLevel) :
    lastLevelAt p (l :: rest)
      = match lastLevelAt p rest with
        | some r => some r
        | none => if l.Pressure = p then some l else none := rfl

theorem lapseScan_none925 (levels : List PressureLevel) :
    ∀ st0 : LapseScanState, lastLevelAt LapseRatePressureHigh levels = none →
      (levels.foldl lapseStep st0).t925 = st0.t925 ∧
      (levels.foldl lapseStep st0).h925 = st0.h925 ∧
      (levels.foldl lapseStep st0).found925 = st0.found925 := by
  induction levels with
  | nil => intro st0 _; exact ⟨rfl, rfl, rfl⟩
  | cons l rest ih =>
      intro st0 hnone
      rw [lastLevelAt_cons] at hnone
      rcases hr : lastLevelAt LapseRatePressureHigh rest with _ | r
      · rw [hr] at hnone
        have hp : l.Pressure ≠ LapseRatePressureHigh := by
          intro hp; rw [if_pos hp] at hnone; exact Option.noConfusion hnone
        have hstep := (lapseStep_spec925 st0 l).2 hp
        have hrest := ih (lapseStep st0 l) hr
        rw [List.foldl_cons]
        exact ⟨hrest.1.trans hstep.1, hrest.2.1.trans hstep.2.1, hrest.2.2.trans hstep.2.2⟩
      · rw [hr] at hnone; exact Option.noConfusion hnone

theorem lapseScan_some925 (levels : List PressureLevel) :
    ∀ (st0 : LapseScanState) (l9 : PressureLevel),
      lastLevelAt LapseRatePressureHigh levels = some l9 →
      (levels.foldl lapseStep st0).t925 = l9.Temperature ∧
      (levels.foldl lapseStep st0).h925 = l9.GeopotentialHeight ∧
      (levels.foldl lapseStep st0).found925 = true := by
  induction levels with
  | nil => intro st0 l9 h; exact Option.noConfusion h
  | cons l rest ih =>
      intro st0 l9 hsome
      rw [lastLevelAt_cons] at hsome
      rw [List.foldl_cons]
      rcases hr : lastLevelAt LapseRatePressureHigh rest with _ | r
      · rw [hr] at hsome
        by_cases hp : l.Pressure = LapseRatePressureHigh
        · rw [if_pos hp] at hsome
          have hl : l = l9 := Option.some.inj hsome
          subst hl
          have hstep := (lapseStep_spec925 st0 l).1 hp
          have hrest := lapseScan_none925 rest (lapseStep st0 l) hr
          exact ⟨hrest.1.trans hstep.1, hrest.2.1.trans hstep.2.1, hrest.2.2.trans hstep.2.2⟩
        · rw [if_neg hp] at hsome
          exact Option.noConfusion hsome
      · rw [hr] at hsome
        have hrl : r = l9 := Option.some.inj hsome
        subst hrl
        exact ih (lapseStep st0 l) r hr

theorem lapseScan_none700 (levels : List PressureLevel) :
    ∀ st0 : LapseScanState, lastLevelAt LapseRatePressureLow levels = none →
      (levels.foldl lapseStep st0).t700 = st0.t700 ∧
      (levels.foldl lapseStep st0).h700 = st0.h700 ∧
      (levels.foldl lapseStep st0).found700 = st0.found700 := by
  induction levels with
  | nil => intro st0 _; exact ⟨rfl, rfl, rfl⟩
  | cons l rest ih =>
      intro st0 hnone
      rw [lastLevelAt_cons] at hnone
      rcases hr : lastLevelAt LapseRatePressureLow rest with _ | r
      · rw [hr] at hnone
        have hp : l.Pressure ≠ LapseRatePressureLow := by
          intro hp; rw [if_pos hp] at hnone; exact Option.noConfusion hnone
        have hstep := (lapseStep_spec700 st0 l).2 hp
        have hrest := ih (lapseStep st0 l) hr
        rw [List.foldl_cons]
        exact ⟨hrest.1.trans hstep.1, hrest.2.1.trans hstep.2.1, hrest.2.2.trans hstep.2.2⟩
      · rw [hr] at hnone; exact Option.noConfusion hnone

theorem lapseScan_some700 (levels : List PressureLevel) :
    ∀ (st0 : LapseScanState) (l7 : PressureLevel),
      lastLevelAt LapseRatePressureLow levels = some l7 →
      (levels.foldl lapseStep st0).t700 = l7.Temperature ∧
      (levels.foldl lapseStep st0).h700 = l7.GeopotentialHeight ∧
      (levels.foldl lapseStep st0).found700 = true := by
  induction levels with
  | nil => intro st0 l7 h; exact Option.noConfusion h
  | cons l rest ih =>
      intro st0 l7 hsome
      rw [lastLevelAt_cons] at hsome
      rw [List.foldl_cons]
      rcases hr : lastLevelAt LapseRatePressureLow rest with _ | r
      · rw [hr] at hsome
        by_cases hp : l.Pressure = LapseRatePressureLow
        · rw [if_pos hp] at hsome
          have hl : l = l7 := Option.some.inj hsome
          subst hl
          have hstep := (lapseStep_spec700 st0 l).1 hp
          have hrest := lapseScan_none700 rest (lapseStep st0 l) hr
          exact ⟨hrest.1.trans hstep.1, hrest.2.1.trans hstep.2.1, hrest.2.2.trans hstep.2.2⟩
        · rw [if_neg hp] at hsome
          exact Option.noConfusion hsome
      · rw [hr] at hsome
        have hrl : r = l7 := Option.some.inj hsome
        subst hrl
        exact ih (lapseStep st0 l) r hr

/-- C8: the lapse rate is the standard 6.5 °C/km constant whenever the
925 hPa or 700 hPa level is absent or the 700 hPa geopotential height does
not exceed the 925 hPa one, and otherwise equals
(T925 − T700) / ((H700 − H925)/1000); with duplicated pressures the last
occurrence wins, as in the scanning loop. -/
theorem calcLapseRate_fallback (levels : List PressureLevel) :
    DefaultLapseRate = 6.5 ∧
    calcLapseRate levels =
      match lastLevelAt LapseRatePressureHigh levels, lastLevelAt LapseRatePressureLow levels with
      | some l9, some l7 =>
          if l7.GeopotentialHeight ≤ l9.GeopotentialHeight then DefaultLapseRate
          else (l9.Temperature - l7.Temperature)
            / ((l7.GeopotentialHeight - l9.GeopotentialHeight) / MetersPerKm)
      | _, _ => DefaultLapseRate := by
  refine ⟨rfl, ?_⟩
  simp only [calcLapseRate]
  rcases h9 : lastLevelAt LapseRatePressureHigh levels with _ | l9
  · obtain ⟨_, _, hf9⟩ := lapseScan_none925 levels ⟨0, 0, 0, 0, false, false⟩ h9
    rcases h7 : lastLevelAt LapseRatePressureLow levels with _ | l7 <;>
      · rw [if_pos (by rw [hf9]; simp)]
  · obtain ⟨ht9, hh9, hf9⟩ := lapseScan_some925 levels ⟨0, 0, 0, 0, false, false⟩ l9 h9
    rcases h7 : lastLevelAt LapseRatePressureLow levels with _ | l7
    · obtain ⟨_, _, hf7⟩ := lapseScan_none700 levels ⟨0, 0, 0, 0, false, false⟩ h7
      rw [if_pos (by rw [hf7]; simp)]
    · obtain ⟨ht7, hh7, hf7⟩ := lapseScan_some700 levels ⟨0, 0, 0, 0, false, false⟩ l7 h7
      rw [ht9, hh9, hf9, ht7, hh7, hf7]
      dsimp only
      by_cases hle : l7.GeopotentialHeight ≤ l9.GeopotentialHeight
      · rw [if_pos (by simp [hle]), if_pos hle]
      · rw [if_neg (by simp [hle]), if_neg hle]

theorem tmod_sixteen_lt (a : ℤ) : a.tmod 16 < 16 :=
  Int.tmod_lt_of_pos a (by norm_num)

theorem neg_sixteen_lt_tmod (a : ℤ) : -16 < a.tmod 16 := by
  cases a with
  | ofNat n =>
      have h := Int.tmod_nonneg (a := Int.ofNat n) 16 (Int.ofNat_nonneg n)
      linarith
  | negSucc m =>
      have h : (Int.negSucc m).tmod 16 = -(((m + 1) % 16 : ℕ) : ℤ) := rfl
      have h2 : (m + 1) % 16 < 16 := Nat.mod_lt _ (by norm_num)
      omega

theorem tmod_adjust (a : ℤ) :
    (if a.tmod 16 < 0 then a.tmod 16 + 16 else a.tmod 16) = a % 16 := by
  have hd := Int.tmod_add_tdiv a 16
  have h1 := tmod_sixteen_lt a
  have h2 := neg_sixteen_lt_tmod a
  split_ifs with h <;> omega

theorem degreesToCompass_eq_emod (deg : ℚ) :
    DegreesToCompass deg
      = compassDirs.getD (goRound (deg / DegreesPerCompassPoint) % 16).toNat "N" := by
  simp only [DegreesToCompass, CompassDirectionCount]
  rw [tmod_adjust]

theorem goRound_eq_of_nonneg (x : ℚ) (z : ℤ) (h0 : 0 ≤ x)
    (h1 : (z : ℚ) ≤ x + 1/2) (h2 : x + 1/2 < z + 1) : goRound x = z := by
  unfold goRound
  rw [if_pos h0]
  exact Int.floor_eq_iff.mpr ⟨h1, by linarith⟩

theorem goRound_eq_of_neg (x : ℚ) (z : ℤ) (h0 : ¬ 0 ≤ x)
    (h1 : (z : ℚ) - 1 < x - 1/2) (h2 : x - 1/2 ≤ z) : goRound x = z := by
  unfold goRound
  rw [if_neg h0]
  exact Int.ceil_eq_iff.mpr ⟨by linarith, h2⟩

theorem goRound_add_int_same_sign (x : ℚ) (n : ℤ) (h : 0 ≤ x ↔ 0 ≤ x + (n : ℚ)) :
    goRound (x + n) = goRound x + n := by
  unfold goRound
  by_cases hx : 0 ≤ x
  · rw [if_pos (h.mp hx), if_pos hx,
      show x + (n : ℚ) + 1/2 = x + 1/2 + n by ring, Int.floor_add_int]
  · rw [if_neg (fun hh => hx (h.mpr hh)), if_neg hx,
      show x + (n : ℚ) - 1/2 = x - 1/2 + n by ring, Int.ceil_add_int]

theorem ceil_eq_floor_add_one_of_not_int (y : ℚ) (hy : ∀ m : ℤ, y ≠ (m : ℚ)) :
    ⌈y⌉ = ⌊y⌋ + 1 := by
  have h1 := Int.ceil_le_floor_add_one y
  have h2 : ⌊y⌋ < ⌈y⌉ := by
    rcases lt_or_le ⌊y⌋ ⌈y⌉ with h | h
    · exact h
    · exfalso
      have hfl : (⌊y⌋ : ℚ) ≤ y := Int.floor_le y
      have hcl : y ≤ (⌈y⌉ : ℚ) := Int.le_ceil y
      have hcast : ((⌈y⌉ : ℤ) : ℚ) ≤ ((⌊y⌋ : ℤ) : ℚ) := by exact_mod_cast h
      exact hy ⌊y⌋ (le_antisymm (hcl.trans hcast) hfl)
  omega

theorem goRound_eq_floor_of_not_half (x : ℚ) (hx : ∀ m : ℤ, x - 1/2 ≠ (m : ℚ)) :
    goRound x = ⌊x + 1/2⌋ := by
  unfold goRound
  split_ifs with h
  · rfl
  · rw [ceil_eq_floor_add_one_of_not_int _ hx,
      show x + 1/2 = x - 1/2 + ((1 : ℤ) : ℚ) by push_cast; ring, Int.floor_add_int]

theorem goRound_add_int_of_not_half (x : ℚ) (n : ℤ) (hx : ∀ m : ℤ, x - 1/2 ≠ (m : ℚ)) :
    goRound (x + n) = goRound x + n := by
  have hx2 : ∀ m : ℤ, (x + (n : ℚ)) - 1/2 ≠ (m : ℚ) := by
    intro m hm
    exact hx (m - n) (by push_cast; linarith)
  rw [goRound_eq_floor_of_not_half _ hx2, goRound_eq_floor_of_not_half _ hx,
    show x + (n : ℚ) + 1/2 = x + 1/2 + n by ring, Int.floor_add_int]

theorem degreesToCompass_periodic (d : ℚ) (k : ℤ)
    (h : (0 ≤ d ↔ 0 ≤ d + 360 * k) ∨ ∀ m : ℤ, d ≠ 45/2 * m + 45/4) :
    DegreesToCompass (d + 360 * k) = DegreesToCompass d := by
  have h225 : (0 : ℚ) < DegreesPerCompassPoint := by norm_num [DegreesPerCompassPoint]
  have harg : (d + 360 * k) / DegreesPerCompassPoint
      = d / DegreesPerCompassPoint + ((16 * k : ℤ) : ℚ) := by
    simp only [DegreesPerCompassPoint]
    push_cast
    field_simp
    ring
  rw [degreesToCompass_eq_emod, degreesToCompass_eq_emod, harg]
  have hgr : goRound (d / DegreesPerCompassPoint + ((16 * k : ℤ) : ℚ))
      = goRound (d / DegreesPerCompassPoint) + 16 * k := by
    rcases h with hsign | hhalf
    · apply goRound_add_int_same_sign
      have hd1 : 0 ≤ d ↔ 0 ≤ d / DegreesPerCompassPoint := by
        rw [le_div_iff₀ h225, zero_mul]
      have hd2 : 0 ≤ d + 360 * k ↔ 0 ≤ (d + 360 * k) / DegreesPerCompassPoint := by
        rw [le_div_iff₀ h225, zero_mul]
      rw [harg] at hd2
      exact (hd1.symm.trans hsign).trans hd2
    · apply goRound_add_int_of_not_half
      intro m hm
      apply hhalf m
      have hne : (DegreesPerCompassPoint : ℚ) ≠ 0 := ne_of_gt h225
      rw [sub_eq_iff_eq_add, div_eq_iff hne] at hm
      rw [hm]
      simp only [DegreesPerCompassPoint]
      norm_num
      ring
  rw [hgr]
  congr 1
  omega

theorem degreesToCompass_mem (deg : ℚ) : DegreesToCompass deg ∈ compassDirs := by
  rw [degreesToCompass_eq_emod]
  have h0 : 0 ≤ goRound (deg / DegreesPerCompassPoint) % 16 :=
    Int.emod_nonneg _ (by norm_num)
  have h1 : goRound (deg / DegreesPerCompassPoint) % 16 < 16 :=
    Int.emod_lt_of_pos _ (by norm_num)
  have hlt : (goRound (deg / DegreesPerCompassPoint) % 16).toNat < compassDirs.length := by
    have hlen : compassDirs.length = 16 := rfl
    rw [hlen]
    omega
  rw [List.getD_eq_getElem _ _ hlt]
  exact List.getElem_mem hlt

theorem degreesToCompass_boundary_N : DegreesToCompass (1124/100) = "N" := by
  have harg : (1124/100 : ℚ) / DegreesPerCompassPoint = 1124/2250 := by
    simp only [DegreesPerCompassPoint]
    norm_num
  rw [degreesToCompass_eq_emod, harg,
    goRound_eq_of_nonneg (1124/2250) 0 (by norm_num) (by norm_num) (by norm_num)]
  rfl

theorem degreesToCompass_boundary_NNE : DegreesToCompass (1126/100) = "NNE" := by
  have harg : (1126/100 : ℚ) / DegreesPerCompassPoint = 1126/2250 := by
    simp only [DegreesPerCompassPoint]
    norm_num
  rw [degreesToCompass_eq_emod, harg,
    goRound_eq_of_nonneg (1126/2250) 1 (by norm_num) (by norm_num) (by norm_num)]
  rfl

/-- C7 counterexample: periodicity fails at an exact half-point boundary
across a sign change. With d = −11.25° and k = 1 the code yields
compass(348.75°) = "N" but compass(−11.25°) = "NNW", because Go rounds
halves away from zero: round(−0.5) = −1 while round(15.5) = 16. -/
theorem degreesToCompass_periodicity_counterexample :
    DegreesToCompass (-45/4 + 360 * ((1 : ℤ) : ℚ)) ≠ DegreesToCompass (-45/4) := by
  have h1 : DegreesToCompass (-45/4 + 360 * ((1 : ℤ) : ℚ)) = "N" := by
    have harg : (-45/4 + 360 * ((1 : ℤ) : ℚ)) / DegreesPerCompassPoint = 31/2 := by
      simp only [DegreesPerCompassPoint]
      push_cast
      norm_num
    rw [degreesToCompass_eq_emod, harg,
      goRound_eq_of_nonneg (31/2) 16 (by norm_num) (by norm_num) (by norm_num)]
    rfl
  have h2 : DegreesToCompass (-45/4) = "NNW" := by
    have harg : (-45/4 : ℚ) / DegreesPerCompassPoint = -1/2 := by
      simp only [DegreesPerCompassPoint]
      norm_num
    rw [degreesToCompass_eq_emod, harg,
      goRound_eq_of_neg (-1/2) (-1) (by norm_num) (by norm_num) (by norm_num)]
    rfl
  rw [h1, h2]
  decide

/-- C7 amended: DegreesToCompass is total (always one of the 16 labels) and
rounds the 11.24°/11.26° boundary to "N"/"NNE"; compass(d) = compass(d+360k)
holds for every k whenever d and d+360k lie on the same side of zero, or d
is not an exact half-point boundary (an odd multiple of 11.25°) — at such a
boundary with a sign change, half-away-from-zero rounding breaks exact
periodicity (see the counterexample). -/
theorem degreesToCompass_total_and_periodic (d : ℚ) :
    DegreesToCompass d ∈ compassDirs ∧
    DegreesToCompass (1124/100) = "N" ∧
    DegreesToCompass (1126/100) = "NNE" ∧
    ∀ k : ℤ, ((0 ≤ d ↔ 0 ≤ d + 360 * k) ∨ ∀ m : ℤ, d ≠ 45/2 * m + 45/4) →
      DegreesToCompass (d + 360 * k) = DegreesToCompass d :=
  ⟨degreesToCompass_mem d, degreesToCompass_boundary_N, degreesToCompass_boundary_NNE,
   fun k h => degreesToCompass_periodic d k h⟩

/-- C7 witness: the amended periodicity applied at d = 90, k = 1, where both
angles are non-negative. -/
theorem degreesToCompass_total_and_periodic_witness :
    DegreesToCompass (90 + 360 * ((1 : ℤ) : ℚ)) = DegreesToCompass 90 :=
  (degreesToCompass_total_and_periodic 90).2.2.2 1 (Or.inl (by norm_num))

theorem bestStep_fst (b : ℤ × String) (m : HourlyMetrics) :
    (bestStep b m).1 = max b.1 m.FlyabilityScore := by
  unfold bestStep
  split_ifs with h
  · exact (max_eq_right (le_of_lt h)).symm
  · exact (max_eq_left (not_lt.mp h)).symm

theorem processDetailedHours_spec (site : Site) (tc : TuningConfig) (hs : List HourlyData) :
    ∀ b : ℤ × String,
      processDetailedHours site tc hs b
        = ((daylightHours hs).map (fun h => ComputeHourlyMetrics h site tc),
           ((daylightHours hs).map (fun h => ComputeHourlyMetrics h site tc)).foldl bestStep b) := by
  induction hs with
  | nil => intro b; rfl
  | cons h rest ih =>
      intro b
      by_cases hd : 8 ≤ h.Time.hour ∧ h.Time.hour ≤ 18
      · simp only [processDetailedHours, if_pos hd, ih]
        simp [daylightHours, List.filter_cons, hd]
      · simp only [processDetailedHours, if_neg hd, ih]
        simp [daylightHours, List.filter_cons, hd]

theorem foldl_bestStep_fst (ms : List HourlyMetrics) :
    ∀ b : ℤ × String,
      (ms.foldl bestStep b).1 = ms.foldl (fun a m => max a m.FlyabilityScore) b.1 := by
  induction ms with
  | nil => intro b; rfl
  | cons m rest ih =>
      intro b
      rw [List.foldl_cons, List.foldl_cons, ih, bestStep_fst]

theorem foldl_bestStep_window (ms : List HourlyMetrics) :
    ∀ b : ℤ × String,
      ms.foldl bestStep b = b ∨
      ∃ m ∈ ms, (ms.foldl bestStep b).1 = m.FlyabilityScore ∧
        (ms.foldl bestStep b).2 = fmtTime m.Time := by
  induction ms with
  | nil => intro b; exact Or.inl rfl
  | cons m rest ih =>
      intro b
      rw [List.foldl_cons]
      rcases ih (bestStep b m) with h | ⟨m2, hm2, h1, h2⟩
      · rw [h]
        unfold bestStep
        split_ifs with hlt
        · exact Or.inr ⟨m, List.mem_cons_self m rest, rfl, rfl⟩
        · exact Or.inl rfl
      · exact Or.inr ⟨m2, List.mem_cons_of_mem m hm2, h1, h2⟩

theorem foldr_max_nonneg (l : List ℤ) : 0 ≤ l.foldr max 0 := by
  induction l with
  | nil => exact le_refl 0
  | cons x xs ih => exact le_trans ih (le_max_right x _)

theorem foldl_max_eq_foldr (ms : List HourlyMetrics) :
    ∀ c : ℤ, 0 ≤ c →
      ms.foldl (fun a m => max a m.FlyabilityScore) c
        = max c ((ms.map (fun m => m.FlyabilityScore)).foldr max 0) := by
  induction ms with
  | nil => intro c hc; exact (max_eq_left hc).symm
  | cons m rest ih =>
      intro c hc
      rw [List.foldl_cons, ih _ (hc.trans (le_max_left c _)), List.map_cons, List.foldr_cons,
        max_assoc]

theorem processDays_best (site : Site) (tc : TuningConfig) (dd : ℕ)
    (days : List (ℤ × List HourlyData)) :
    ∀ (dayIdx : ℕ) (b : ℤ × String),
      (processDays site tc dd days dayIdx b).2.2.1
        = (detailedDaylightMetrics site tc (dd - dayIdx) days).foldl
            (fun a m => max a m.FlyabilityScore) b.1 ∧
      ((processDays site tc dd days dayIdx b).2.2 = b ∨
        ∃ m ∈ detailedDaylightMetrics site tc (dd - dayIdx) days,
          (processDays site tc dd days dayIdx b).2.2.1 = m.FlyabilityScore ∧
          (processDays site tc dd days dayIdx b).2.2.2 = fmtTime m.Time) := by
  induction days with
  | nil =>
      intro dayIdx b
      have hd : detailedDaylightMetrics site tc (dd - dayIdx) [] = [] := by
        simp [detailedDaylightMetrics]
      rw [hd]
      exact ⟨rfl, Or.inl rfl⟩
  | cons day rest ih =>
      intro dayIdx b
      obtain ⟨date, hs⟩ := day
      by_cases hidx : dayIdx < dd
      · have hsub : dd - dayIdx = (dd - (dayIdx + 1)) + 1 := by omega
        have hdet : detailedDaylightMetrics site tc (dd - dayIdx) ((date, hs) :: rest)
            = ((daylightHours hs).map (fun h => ComputeHourlyMetrics h site tc))
              ++ detailedDaylightMetrics site tc (dd - (dayIdx + 1)) rest := by
          simp only [detailedDaylightMetrics, hsub, List.take_succ_cons, List.map_cons,
            List.flatten_cons]
        simp only [processDays, if_pos hidx, processDetailedHours_spec, hdet, List.foldl_append]
        obtain ⟨ihb, ihw⟩ := ih (dayIdx + 1)
          (((daylightHours hs).map (fun h => ComputeHourlyMetrics h site tc)).foldl bestStep b)
        constructor
        · rw [ihb, foldl_bestStep_fst]
        · rcases ihw with hsame | ⟨m, hm, h1, h2⟩
          · rw [hsame]
            rcases foldl_bestStep_window
                ((daylightHours hs).map (fun h => ComputeHourlyMetrics h site tc)) b with
              hsame2 | ⟨m, hm, h1, h2⟩
            · rw [hsame2]
              exact Or.inl rfl
            · exact Or.inr ⟨m, List.mem_append_left _ hm, h1, h2⟩
          · exact Or.inr ⟨m, List.mem_append_right _ hm, h1, h2⟩
      · have hz : dd - dayIdx = 0 := by omega
        have hz2 : dd - (dayIdx + 1) = 0 := by omega
        have hdet0 : detailedDaylightMetrics site tc 0 ((date, hs) :: rest) = [] := rfl
        have hdet0r : detailedDaylightMetrics site tc 0 rest = [] := rfl
        obtain ⟨ihb, ihw⟩ := ih (dayIdx + 1) b
        rw [hz2, hdet0r] at ihb ihw
        simp only [processDays, if_neg hidx, hz, hdet0]
        exact ⟨ihb, ihw⟩

theorem fmtTime_ne_empty (t : LocalTime) : fmtTime t ≠ "" := by
  intro h
  have hl : (fmtTime t).length = 0 := by rw [h]; rfl
  unfold fmtTime at hl
  rw [String.length_append, String.length_append] at hl
  have hone : (" " : String).length = 1 := rfl
  omega

/-- C5: in the forecast produced from fetched hourly data, the BestWindow
label is non-empty exactly when the highest flyability score among the
daylight hours of the detailed days is at least 3, and when non-empty it
names an hour of that pool attaining the highest score.  Extended days
never contribute: the candidate pool ranges only over the first
`detailedDays` day groups. -/
theorem generateForecast_best_window (site : Site) (now : LocalTime) (units : String)
    (detailedDaysOpt : ℤ) (tc : TuningConfig) (hourlyData : List HourlyData) :
    ((generateForecastCore site now units detailedDaysOpt tc hourlyData).BestWindow ≠ "" ↔
      3 ≤ bestDetailedScore site tc (effDetailedDays detailedDaysOpt) (groupByDay hourlyData)) ∧
    ((generateForecastCore site now units detailedDaysOpt tc hourlyData).BestWindow = "" ∨
      ∃ m ∈ detailedDaylightMetrics site tc (effDetailedDays detailedDaysOpt)
          (groupByDay hourlyData),
        m.FlyabilityScore
          = bestDetailedScore site tc (effDetailedDays detailedDaysOpt) (groupByDay hourlyData) ∧
        (generateForecastCore site now units detailedDaysOpt tc hourlyData).BestWindow
          = fmtTime m.Time) := by
  obtain ⟨hbest, hwin⟩ := processDays_best site tc (effDetailedDays detailedDaysOpt)
    (groupByDay hourlyData) 0 (0, "")
  rw [Nat.sub_zero] at hbest hwin
  dsimp only at hbest hwin
  have hfold := foldl_max_eq_foldr
    (detailedDaylightMetrics site tc (effDetailedDays detailedDaysOpt) (groupByDay hourlyData))
    0 (le_refl 0)
  have hnn := foldr_max_nonneg
    ((detailedDaylightMetrics site tc (effDetailedDays detailedDaysOpt)
      (groupByDay hourlyData)).map (fun m => m.FlyabilityScore))
  have hbs : (processDays site tc (effDetailedDays detailedDaysOpt) (groupByDay hourlyData)
        0 (0, "")).2.2.1
      = bestDetailedScore site tc (effDetailedDays detailedDaysOpt) (groupByDay hourlyData) := by
    rw [hbest, hfold]
    exact max_eq_right hnn
  simp only [generateForecastCore]
  constructor
  · constructor
    · intro hne
      by_cases h3 : 3 ≤ (processDays site tc (effDetailedDays detailedDaysOpt)
          (groupByDay hourlyData) 0 (0, "")).2.2.1
      · rw [← hbs]
        exact h3
      · rw [if_neg h3] at hne
        exact absurd rfl hne
    · intro h3
      rw [if_pos (hbs ▸ h3)]
      rcases hwin with hsame | ⟨m, _, _, h2⟩
      · exfalso
        rw [hsame] at hbs
        simp at hbs
        omega
      · rw [h2]
        exact fmtTime_ne_empty m.Time
  · by_cases h3 : 3 ≤ (processDays site tc (effDetailedDays detailedDaysOpt)
        (groupByDay hourlyData) 0 (0, "")).2.2.1
    · rcases hwin with hsame | ⟨m, hm, h1, h2⟩
      · exfalso
        rw [hsame] at h3
        simp at h3
      · refine Or.inr ⟨m, hm, ?_, ?_⟩
        · rw [← h1, hbs]
        · rw [if_pos h3]
          exact h2
    · rw [if_neg h3]
      exact Or.inl rfl

end Pgforecast
